import Mathlib

/-!
Verification of the HyperYield optimizer (GlueX client + optimizer loop).

The Python sources `gluex_client.py` and `optimizer.py` are shallowly
embedded: floats become rationals, Python dictionaries (consumed only for
the `apy` and `tvl` keys) become association lists, and every external
effect (HTTP calls, contract reads, transaction submission) is
parameterised by an explicit outcome value so the control flow of the
source can be reproduced exactly.
-/

namespace HyperYield

/-- A JSON-object response, consumed only through `.get key default`.
Python truthiness of a dict is emptiness of this list. -/
abbrev Dict : Type := List (String × ℚ)

/-- `d.get k default` of a Python dict. -/
def dget (d : Dict) (k : String) (default : ℚ) : ℚ :=
  match d.lookup k with
  | some v => v
  | none => default

/-- Python truthiness of an optional dict: `None` and `{}` are falsy. -/
def truthy (o : Option Dict) : Bool :=
  match o with
  | none => false
  | some d => !d.isEmpty

/-- `YieldData` dataclass from `gluex_client.py`. -/
structure YieldData where
  vault_address : String
  apy : ℚ
  tvl : ℚ
  risk_score : ℚ
  timestamp : ℕ
deriving DecidableEq, Repr

/-- `GlueXClient._calculate_risk_score` (gluex_client.py lines 247-265). -/
def calculate_risk_score (apy tvl : ℚ) : ℚ :=
  let apy_risk := min (apy / 100) 1 * 50
  let tvl_safety := max 0 (50 - tvl / 10000000 * 10)
  let risk_score := apy_risk + tvl_safety
  min risk_score 100

/-- Default `risk_free_rate` argument (0.05) of `calculate_sharpe_ratio`. -/
def RISK_FREE_DEFAULT : ℚ := 1 / 20

/-- `GlueXClient.calculate_sharpe_ratio` (gluex_client.py lines 267-292). -/
def calculate_sharpe_ratio (yd : YieldData) (risk_free_rate : ℚ) : ℚ :=
  let excess_return := yd.apy / 100 - risk_free_rate
  let volatility := yd.risk_score / 100
  if volatility = 0 then 0
  else excess_return / volatility

/-- Outcome of fetching one vault inside the `get_multiple_vault_yields`
loop: either the body raises (caught by the per-vault `except`), or the two
API calls return their (already error-caught, hence optional) dicts. -/
inductive FetchOutcome where
  | raises
  | ok (hist : Option Dict) (dil : Option Dict)
deriving DecidableEq

/-- One iteration of the `get_multiple_vault_yields` loop body
(gluex_client.py lines 154-181): `none` when the vault contributes no
entry (exception, a `None` response, or a falsy dict). -/
def processVault (t : ℕ) (vault : String) (f : FetchOutcome) : Option YieldData :=
  match f with
  | .raises => none
  | .ok hist_data diluted_data =>
    if truthy hist_data ∧ truthy diluted_data then
      let apy := if truthy diluted_data then dget (diluted_data.getD []) "apy" 0
                 else dget (hist_data.getD []) "apy" 0
      let tvl := dget (hist_data.getD []) "tvl" 0
      some { vault_address := vault, apy := apy, tvl := tvl,
             risk_score := calculate_risk_score apy tvl, timestamp := t }
    else none

/-- `GlueXClient.get_multiple_vault_yields` (gluex_client.py lines 135-183),
with the two API calls abstracted into `fetch`. -/
def get_multiple_vault_yields (t : ℕ) (fetch : String → FetchOutcome) :
    List String → List YieldData
  | [] => []
  | v :: rest =>
    match processVault t v (fetch v) with
    | some y => y :: get_multiple_vault_yields t fetch rest
    | none => get_multiple_vault_yields t fetch rest

/-- The scan is the `filterMap` of the per-vault body: one bad vault is
skipped and the rest still processed, in input order. -/
theorem get_multiple_vault_yields_eq_filterMap (t : ℕ) (fetch : String → FetchOutcome)
    (vaults : List String) :
    get_multiple_vault_yields t fetch vaults =
      vaults.filterMap (fun v => processVault t v (fetch v)) := by
  induction vaults with
  | nil => rfl
  | cons v rest ih =>
    simp only [get_multiple_vault_yields, List.filterMap_cons]
    cases processVault t v (fetch v) <;> simp [ih]

/-- The per-vault score of `find_best_yield_opportunity`
(gluex_client.py lines 319-327): sharpe / apy / safety, any other mode
falling back to sharpe; `calculate_sharpe_ratio` is called with its
default risk-free rate. -/
def scoreOf (optimize_for : String) (d : YieldData) : ℚ :=
  if optimize_for = "sharpe" then calculate_sharpe_ratio d RISK_FREE_DEFAULT
  else if optimize_for = "apy" then d.apy
  else if optimize_for = "safety" then -d.risk_score
  else calculate_sharpe_ratio d RISK_FREE_DEFAULT

/-- The selection loop of `find_best_yield_opportunity` (gluex_client.py
lines 316-333): `best_score` starts at `-inf`, modelled by a `none`
accumulator (every rational score compares above `-inf`); an entry replaces
the accumulator only under strict `>`. -/
def rankLoop (score : YieldData → ℚ) (acc : Option (String × YieldData × ℚ)) :
    List YieldData → Option (String × YieldData × ℚ)
  | [] => acc
  | d :: rest =>
    match acc with
    | none => rankLoop score (some (d.vault_address, d, score d)) rest
    | some b =>
      if b.2.2 < score d then rankLoop score (some (d.vault_address, d, score d)) rest
      else rankLoop score (some b) rest

/-- `GlueXClient.find_best_yield_opportunity` (gluex_client.py lines
294-335). -/
def find_best_yield_opportunity (t : ℕ) (fetch : String → FetchOutcome)
    (vault_addresses : List String) (optimize_for : String) :
    Option (String × YieldData × ℚ) :=
  let yield_data_list := get_multiple_vault_yields t fetch vault_addresses
  if yield_data_list.isEmpty then none
  else rankLoop (scoreOf optimize_for) none yield_data_list

/-- `HyperYieldOptimizer.can_rebalance` (optimizer.py lines 128-134): the
contract read either returns a bool or raises; a raise yields `false`. -/
def can_rebalance (cooldownRead : Option Bool) : Bool :=
  match cooldownRead with
  | some b => b
  | none => false

/-- `HyperYieldOptimizer.should_rebalance` (optimizer.py lines 153-181).
Python string truthiness: the first check fires only for a non-empty
`current_vault`. -/
def should_rebalance (min_apy_diff : ℚ) (cooldownRead : Option Bool)
    (current_vault : String) (current_apy : ℚ)
    (new_vault : String) (new_apy : ℚ) : Bool :=
  if ¬current_vault.isEmpty ∧ current_vault.toLower = new_vault.toLower then false
  else if new_apy - current_apy < min_apy_diff then false
  else if ¬can_rebalance cooldownRead then false
  else true

/-- Outcome of the transaction submission inside `execute_rebalance`:
either some step raises (build/sign/send/timeout), or a receipt with the
given status arrives. -/
inductive ExecOutcome where
  | error
  | receipt (status : ℕ)
deriving DecidableEq

/-- `HyperYieldOptimizer.execute_rebalance` (optimizer.py lines 183-225):
returns the boolean result and the updated `rebalance_count` (incremented
only on a status-1 receipt; any exception is caught and yields `false`). -/
def execute_rebalance (o : ExecOutcome) (rebalance_count : ℕ) : Bool × ℕ :=
  match o with
  | .error => (false, rebalance_count)
  | .receipt status =>
    if status = 1 then (true, rebalance_count + 1)
    else (false, rebalance_count)

/-- The process-lifetime mutable fields of `HyperYieldOptimizer`
(optimizer.py lines 108-111). -/
structure OptimizerState where
  current_vault : Option String
  current_apy : ℚ
  last_check_time : ℕ
  rebalance_count : ℕ
deriving DecidableEq, Repr

/-- The configuration fields `run_optimization_cycle` reads. -/
structure OptimizerConfig where
  min_apy_diff : ℚ
  optimize_for : String

/-- All external outcomes one cycle can observe: the allocation read
(`none` = the contract call raised), the yield-API fetches (a function of
the amount string and the vault address), the cooldown read, the
transaction outcome, and the current wall-clock time. -/
structure Env where
  allocRead : Option (String × ℕ × ℕ)
  fetch : String → String → FetchOutcome
  cooldownRead : Option Bool
  execOutcome : ExecOutcome
  now : ℕ

/-- Observable calls a cycle made: the amount string handed to the scan,
and the (vault, amount) of the `execute_rebalance` invocation if any. -/
structure CycleTrace where
  scanAmount : String
  execCalled : Option (String × ℕ)
deriving DecidableEq, Repr

/-- The whitelisted vaults (`HyperYieldOptimizer.GLUEX_VAULTS`). -/
def GLUEX_VAULTS : List String :=
  ["0xe25514992597786e07872e6c5517fe1906c0cadd",
   "0xcdc3975df9d1cf054f44ed238edfb708880292ea",
   "0x8f9291606862eef771a97e5b71e4b98fd1fa216a",
   "0x9f75eac57d1c6f7248bd2aede58c95689f3827f7",
   "0x63cf7ee583d9954febf649ad1c40c97a6493b1be"]

def ZERO_ADDRESS : String := "0x0000000000000000000000000000000000000000"

/-- `HyperYieldOptimizer.get_current_allocation` (optimizer.py lines
115-126): a raising contract call yields the fallback record
`vault = None, amount = 0, last_update = 0`. -/
def get_current_allocation (r : Option (String × ℕ × ℕ)) :
    Option String × ℕ × ℕ :=
  match r with
  | some (vault, amount, last_update) => (some vault, amount, last_update)
  | none => (none, 0, 0)

/-- The allocation amount the cycle sees. -/
def allocAmount (env : Env) : ℕ := (get_current_allocation env.allocRead).2.1

/-- The amount string of `find_best_opportunity` (optimizer.py line 142):
the allocation amount if positive, else the default `"1000000000000"`. -/
def cycleAmount (env : Env) : String :=
  if allocAmount env > 0 then toString (allocAmount env) else "1000000000000"

/-- The candidate `find_best_opportunity` returns inside a cycle
(optimizer.py lines 136-151 and 245). -/
def cycleResult (cfg : OptimizerConfig) (env : Env) :
    Option (String × YieldData × ℚ) :=
  find_best_yield_opportunity env.now (env.fetch (cycleAmount env))
    GLUEX_VAULTS cfg.optimize_for

/-- The scan performed inside a cycle. -/
def cycleScan (env : Env) : List YieldData :=
  get_multiple_vault_yields env.now (env.fetch (cycleAmount env)) GLUEX_VAULTS

/-- `HyperYieldOptimizer.run_optimization_cycle` (optimizer.py lines
227-274), returning the post-state and the trace of observable calls. -/
def run_optimization_cycle (cfg : OptimizerConfig) (env : Env)
    (st : OptimizerState) : OptimizerState × CycleTrace :=
  let alloc := get_current_allocation env.allocRead
  let current_amount := alloc.2.1
  let current_vault : Option String :=
    match alloc.1 with
    | some v => if ¬v.isEmpty ∧ v ≠ ZERO_ADDRESS then some v else none
    | none => none
  match cycleResult cfg env with
  | none => (st, { scanAmount := cycleAmount env, execCalled := none })
  | some (target_vault, yield_data, _score) =>
    if should_rebalance cfg.min_apy_diff env.cooldownRead
        (current_vault.getD "") st.current_apy target_vault yield_data.apy then
      let rebalance_amount := if current_amount > 0 then current_amount else 1000000000
      let res := execute_rebalance env.execOutcome st.rebalance_count
      let st1 := { st with rebalance_count := res.2 }
      let st2 := if res.1 then
          { st1 with current_vault := some target_vault, current_apy := yield_data.apy }
        else st1
      ({ st2 with last_check_time := env.now },
       { scanAmount := cycleAmount env, execCalled := some (target_vault, rebalance_amount) })
    else
      ({ st with last_check_time := env.now },
       { scanAmount := cycleAmount env, execCalled := none })

/-! ### Helper lemmas -/

/-- Unfolding equation for `calculate_sharpe_ratio`. -/
lemma calculate_sharpe_ratio_eq (yd : YieldData) (rfr : ℚ) :
    calculate_sharpe_ratio yd rfr =
      if yd.risk_score / 100 = 0 then 0
      else (yd.apy / 100 - rfr) / (yd.risk_score / 100) := rfl

lemma risk_div_eq_zero_iff (yd : YieldData) :
    yd.risk_score / 100 = 0 ↔ yd.risk_score = 0 := by
  rw [div_eq_zero_iff]
  simp

/-! ### C2: risk score formula and bounds -/

/-- C2: for `apy ≥ 0` and `tvl ≥ 0` the risk score is exactly
`min (min (apy/100) 1 * 50 + max 0 (50 - tvl/10000000 * 10)) 100`, a value
in `[0, 100]`. -/
theorem risk_score_exact_formula_and_range (apy tvl : ℚ)
    (h1 : 0 ≤ apy) (h2 : 0 ≤ tvl) :
    calculate_risk_score apy tvl =
      min (min (apy / 100) 1 * 50 + max 0 (50 - tvl / 10000000 * 10)) 100 ∧
    0 ≤ calculate_risk_score apy tvl ∧ calculate_risk_score apy tvl ≤ 100 := by
  refine ⟨rfl, ?_, ?_⟩
  · have ha : (0:ℚ) ≤ min (apy / 100) 1 * 50 :=
      mul_nonneg (le_min (by positivity) (by norm_num)) (by norm_num)
    have hb : (0:ℚ) ≤ max 0 (50 - tvl / 10000000 * 10) := le_max_left 0 _
    exact le_min (add_nonneg ha hb) (by norm_num)
  · exact min_le_right _ _

/-- Witness for C2 at `apy = 7`, `tvl = 20000000`. -/
theorem risk_score_exact_formula_and_range_w :
    calculate_risk_score 7 20000000 =
      min (min ((7:ℚ) / 100) 1 * 50 + max 0 (50 - 20000000 / 10000000 * 10)) 100 ∧
    0 ≤ calculate_risk_score 7 20000000 ∧ calculate_risk_score 7 20000000 ≤ 100 :=
  risk_score_exact_formula_and_range 7 20000000 (by norm_num) (by norm_num)

/-! ### C9: sharpe score -/

/-- C9: the sharpe score is the quotient formula whenever the risk score is
nonzero, the default risk-free rate is 0.05, and a zero risk score yields
exactly 0 (the division branch is skipped). -/
theorem sharpe_formula_and_zero_risk (yd : YieldData) (rfr : ℚ) :
    (yd.risk_score ≠ 0 →
      calculate_sharpe_ratio yd rfr = (yd.apy / 100 - rfr) / (yd.risk_score / 100)) ∧
    (yd.risk_score = 0 → calculate_sharpe_ratio yd rfr = 0) ∧
    RISK_FREE_DEFAULT = 1 / 20 := by
  refine ⟨?_, ?_, rfl⟩
  · intro h
    rw [calculate_sharpe_ratio_eq, if_neg]
    rw [risk_div_eq_zero_iff]
    exact h
  · intro h
    rw [calculate_sharpe_ratio_eq, if_pos ((risk_div_eq_zero_iff yd).mpr h)]

/-- Witness for C9: a zero-risk vault scores 0, a nonzero-risk vault gets
the quotient formula. -/
theorem sharpe_formula_and_zero_risk_w :
    calculate_sharpe_ratio ⟨"v", 10, 0, 0, 0⟩ (1 / 20) = 0 ∧
    calculate_sharpe_ratio ⟨"w", 10, 0, 50, 0⟩ (1 / 20) =
      ((10:ℚ) / 100 - 1 / 20) / ((50:ℚ) / 100) :=
  ⟨(sharpe_formula_and_zero_risk ⟨"v", 10, 0, 0, 0⟩ (1 / 20)).2.1 rfl,
   (sharpe_formula_and_zero_risk ⟨"w", 10, 0, 50, 0⟩ (1 / 20)).1 (by norm_num)⟩

/-! ### C1: the rebalance gate -/

/-- C1: `should_rebalance` is true exactly when the candidate is not the
(case-insensitively) same non-empty current vault, the APY improvement
meets the threshold, and the cooldown check succeeds; a failed
`canRebalance` read counts as not ok. -/
theorem should_rebalance_characterisation (m : ℚ) (cd : Option Bool)
    (cv : String) (ca : ℚ) (nv : String) (na : ℚ) :
    (should_rebalance m cd cv ca nv na = true ↔
      ¬(¬cv.isEmpty ∧ cv.toLower = nv.toLower) ∧
      ¬(na - ca < m) ∧ can_rebalance cd = true) ∧
    can_rebalance none = false := by
  refine ⟨?_, rfl⟩
  unfold should_rebalance
  split_ifs with h1 h2 h3 <;> simp_all

/-- Witness for C1: with no current vault, the gate fires on a 1-point
improvement over threshold 0.5 with the cooldown ok, and a failed
`canRebalance` read is not ok. -/
theorem should_rebalance_characterisation_w :
    should_rebalance (1 / 2) (some true) "" 4 "0xb" 5 = true ∧
    can_rebalance none = false :=
  ⟨(should_rebalance_characterisation (1 / 2) (some true) "" 4 "0xb" 5).1.mpr
      ⟨fun h => h.1 rfl, by norm_num, rfl⟩,
   (should_rebalance_characterisation (1 / 2) (some true) "" 4 "0xb" 5).2⟩

/-! ### Ranking lemmas -/

lemma rankLoop_nil (score : YieldData → ℚ) (acc : Option (String × YieldData × ℚ)) :
    rankLoop score acc [] = acc := rfl

lemma rankLoop_cons_none (score : YieldData → ℚ) (d : YieldData) (rest : List YieldData) :
    rankLoop score none (d :: rest) =
      rankLoop score (some (d.vault_address, d, score d)) rest := rfl

lemma rankLoop_cons_some (score : YieldData → ℚ) (b : String × YieldData × ℚ)
    (d : YieldData) (rest : List YieldData) :
    rankLoop score (some b) (d :: rest) =
      if b.2.2 < score d then rankLoop score (some (d.vault_address, d, score d)) rest
      else rankLoop score (some b) rest := rfl

/-- Running the selection loop from a `some` accumulator yields a result
that dominates the accumulator and every scanned entry, and is either the
accumulator itself or the first strictly-better entry of the list. -/
lemma rankLoop_some_spec (score : YieldData → ℚ) :
    ∀ (l : List YieldData) (b : String × YieldData × ℚ),
    ∃ r, rankLoop score (some b) l = some r ∧
      b.2.2 ≤ r.2.2 ∧
      (∀ e ∈ l, score e ≤ r.2.2) ∧
      (r = b ∨ ∃ i, ∃ hi : i < l.length,
        r = ((l.get ⟨i, hi⟩).vault_address, l.get ⟨i, hi⟩, score (l.get ⟨i, hi⟩)) ∧
        b.2.2 < r.2.2 ∧
        ∀ j (hj : j < i), score (l.get ⟨j, Nat.lt_trans hj hi⟩) < r.2.2) := by
  intro l
  induction l with
  | nil =>
    intro b
    exact ⟨b, rfl, le_refl _, by simp, Or.inl rfl⟩
  | cons d rest ih =>
    intro b
    rw [rankLoop_cons_some]
    by_cases hlt : b.2.2 < score d
    · rw [if_pos hlt]
      obtain ⟨r, hr, h1, h2, h3⟩ := ih (d.vault_address, d, score d)
      have hsd : score d ≤ r.2.2 := h1
      refine ⟨r, hr, le_of_lt (lt_of_lt_of_le hlt hsd), ?_, ?_⟩
      · intro e he
        rcases List.mem_cons.mp he with he | he
        · exact he ▸ hsd
        · exact h2 e he
      · rcases h3 with h3 | ⟨i, hi, hre, hbl, hprev⟩
        · refine Or.inr ⟨0, Nat.succ_pos _, ?_, ?_, ?_⟩
          · simpa using h3
          · rw [h3]; exact hlt
          · intro j hj; omega
        · refine Or.inr ⟨i + 1, Nat.succ_lt_succ hi, ?_, lt_trans hlt hbl, ?_⟩
          · simpa using hre
          · intro j hj
            cases j with
            | zero => simpa using hbl
            | succ k =>
              have hk : k < i := Nat.lt_of_succ_lt_succ hj
              simpa using hprev k hk
    · rw [if_neg hlt]
      obtain ⟨r, hr, h1, h2, h3⟩ := ih b
      have hsd : score d ≤ b.2.2 := not_lt.mp hlt
      refine ⟨r, hr, h1, ?_, ?_⟩
      · intro e he
        rcases List.mem_cons.mp he with he | he
        · exact he ▸ le_trans hsd h1
        · exact h2 e he
      · rcases h3 with h3 | ⟨i, hi, hre, hbl, hprev⟩
        · exact Or.inl h3
        · refine Or.inr ⟨i + 1, Nat.succ_lt_succ hi, ?_, hbl, ?_⟩
          · simpa using hre
          · intro j hj
            cases j with
            | zero => simpa using lt_of_le_of_lt hsd hbl
            | succ k =>
              have hk : k < i := Nat.lt_of_succ_lt_succ hj
              simpa using hprev k hk

lemma rankLoop_some_ne_none (score : YieldData → ℚ)
    (l : List YieldData) (b : String × YieldData × ℚ) :
    rankLoop score (some b) l ≠ none := by
  obtain ⟨r, hr, -⟩ := rankLoop_some_spec score l b
  simp [hr]

/-- The selected candidate is built from the first entry attaining the
maximum score of the scan list: every entry scores at most `r.2.2`, and
every entry strictly before the selected index scores strictly below it. -/
def FirstMaxAt (score : YieldData → ℚ) (l : List YieldData)
    (r : String × YieldData × ℚ) : Prop :=
  ∃ i, ∃ hi : i < l.length,
    r = ((l.get ⟨i, hi⟩).vault_address, l.get ⟨i, hi⟩, score (l.get ⟨i, hi⟩)) ∧
    (∀ e ∈ l, score e ≤ r.2.2) ∧
    ∀ j (hj : j < i), score (l.get ⟨j, Nat.lt_trans hj hi⟩) < r.2.2

/-- The ranking returns `none` exactly when the scan is empty. -/
lemma find_best_eq_none_iff (t : ℕ) (fetch : String → FetchOutcome)
    (vaults : List String) (mode : String) :
    find_best_yield_opportunity t fetch vaults mode = none ↔
      get_multiple_vault_yields t fetch vaults = [] := by
  unfold find_best_yield_opportunity
  cases hl : get_multiple_vault_yields t fetch vaults with
  | nil => simp
  | cons d rest =>
    simp only [List.isEmpty_cons, if_neg]
    constructor
    · intro h
      exact absurd (rankLoop_cons_none (scoreOf mode) d rest ▸ h)
        (rankLoop_some_ne_none (scoreOf mode) rest _)
    · intro h; exact absurd h (by simp)

/-- A `some` result of the ranking is the first maximal entry of the
scan. -/
lemma find_best_some_firstMax (t : ℕ) (fetch : String → FetchOutcome)
    (vaults : List String) (mode : String) (r : String × YieldData × ℚ)
    (hr : find_best_yield_opportunity t fetch vaults mode = some r) :
    FirstMaxAt (scoreOf mode) (get_multiple_vault_yields t fetch vaults) r := by
  unfold find_best_yield_opportunity at hr
  revert hr
  cases hl : get_multiple_vault_yields t fetch vaults with
  | nil => simp
  | cons d rest =>
    intro hr
    simp only [List.isEmpty_cons, Bool.false_eq_true, if_false] at hr
    rw [rankLoop_cons_none] at hr
    obtain ⟨r2, hr2, h1, h2, h3⟩ := rankLoop_some_spec (scoreOf mode) rest
      (d.vault_address, d, scoreOf mode d)
    rw [hr2] at hr
    injection hr with hr
    subst hr
    rcases h3 with h3 | ⟨i, hi, hre, hbl, hprev⟩
    · refine ⟨0, Nat.succ_pos _, by simpa using h3, ?_, ?_⟩
      · intro e he
        rcases List.mem_cons.mp he with he | he
        · subst he; exact h1
        · exact h2 e he
      · intro j hj; omega
    · refine ⟨i + 1, Nat.succ_lt_succ hi, by simpa using hre, ?_, ?_⟩
      · intro e he
        rcases List.mem_cons.mp he with he | he
        · subst he; exact h1
        · exact h2 e he
      · intro j hj
        cases j with
        | zero => simpa using hbl
        | succ k =>
          have hk : k < i := Nat.lt_of_succ_lt_succ hj
          simpa using hprev k hk

/-! ### C3: ranking returns none iff empty scan, first maximum wins -/

/-- C3: `find_best_yield_opportunity` returns `none` exactly when the scan
produced zero entries; otherwise the result is the candidate of the first
entry attaining the maximum score (strict `>` keeps the earlier of any
tie). -/
theorem rank_none_iff_empty_and_first_max (t : ℕ) (fetch : String → FetchOutcome)
    (vaults : List String) (mode : String) :
    (find_best_yield_opportunity t fetch vaults mode = none ↔
      get_multiple_vault_yields t fetch vaults = []) ∧
    (∀ r, find_best_yield_opportunity t fetch vaults mode = some r →
      FirstMaxAt (scoreOf mode) (get_multiple_vault_yields t fetch vaults) r) :=
  ⟨find_best_eq_none_iff t fetch vaults mode,
   fun r hr => find_best_some_firstMax t fetch vaults mode r hr⟩

/-! ### Concrete fixtures for witnesses and counterexamples -/

/-- A fetch giving two vaults identical data: a scoring tie. -/
def fetchTie : String → FetchOutcome :=
  fun _ => .ok (some [("apy", 5), ("tvl", 0)]) (some [("apy", 5)])

/-- Historical response carrying both `apy` and `tvl`. -/
def histSample : Dict := [("apy", 15), ("tvl", 5)]

/-- A truthy diluted response that carries no `apy` key. -/
def dilNoApy : Dict := [("zz", 1)]

/-- Fetch whose diluted response lacks the `apy` key. -/
def fetchNoApy : String → FetchOutcome :=
  fun _ => .ok (some histSample) (some dilNoApy)

/-- The `YieldData` the scan builds from `fetchNoApy`. -/
def ydNoApy : YieldData :=
  { vault_address := "v", apy := 0, tvl := 5,
    risk_score := calculate_risk_score 0 5, timestamp := 0 }

lemma string_empty_isEmpty : "".isEmpty = true := rfl

/-- A cycle configuration: threshold 0.5, raw-APY mode. -/
def cfgApy : OptimizerConfig := { min_apy_diff := 1 / 2, optimize_for := "apy" }

/-- A cycle environment whose scan finds nothing: every fetch returns
`None` responses. -/
def envEmpty : Env :=
  { allocRead := none, fetch := fun _ _ => .ok none none,
    cooldownRead := some true, execOutcome := .receipt 1, now := 99 }

/-- A cycle environment in which the allocation read raises, the first
whitelisted vault reports a 15% APY, the cooldown is ok, and the
transaction succeeds. -/
def envRich : Env :=
  { allocRead := none,
    fetch := fun _ v =>
      if v = "0xe25514992597786e07872e6c5517fe1906c0cadd" then
        .ok (some [("apy", 15), ("tvl", 5)]) (some [("apy", 15)])
      else .ok none none,
    cooldownRead := some true, execOutcome := .receipt 1, now := 99 }

/-- An optimizer state with a recorded previous check time. -/
def stPrev : OptimizerState :=
  { current_vault := none, current_apy := 0, last_check_time := 7,
    rebalance_count := 0 }

/-- Like `envRich`, but the rebalance transaction receipt reports a failed
status. -/
def envFail : Env := { envRich with execOutcome := .receipt 0 }

/-- The `YieldData` the scan builds from `fetchTie` for vault `v`. -/
def ydTie (v : String) : YieldData :=
  { vault_address := v, apy := 5, tvl := 0,
    risk_score := calculate_risk_score 5 0, timestamp := 0 }

/-- Witness for C3: an empty scan ranks to `none`; two vaults with tied
score 5 rank to the first one. -/
theorem rank_none_iff_empty_and_first_max_w :
    find_best_yield_opportunity 0 fetchTie [] "apy" = none ∧
    FirstMaxAt (scoreOf "apy") (get_multiple_vault_yields 0 fetchTie ["a", "b"])
      ("a", ydTie "a", 5) :=
  ⟨(rank_none_iff_empty_and_first_max 0 fetchTie [] "apy").1.mpr rfl,
   (rank_none_iff_empty_and_first_max 0 fetchTie ["a", "b"] "apy").2
     ("a", ydTie "a", 5) rfl⟩

/-! ### Cycle-level helper lemmas -/

/-- The cycle's ranking result is `none` exactly when the cycle's scan is
empty. -/
lemma cycleResult_eq_none_iff (cfg : OptimizerConfig) (env : Env) :
    cycleResult cfg env = none ↔ cycleScan env = [] :=
  find_best_eq_none_iff env.now (env.fetch (cycleAmount env)) GLUEX_VAULTS
    cfg.optimize_for

/-- A failed transaction outcome makes `execute_rebalance` report `false`
and keep the counter. -/
lemma execute_rebalance_failed (o : ExecOutcome) (c : ℕ)
    (h : o = .error ∨ ∃ s, o = .receipt s ∧ s ≠ 1) :
    execute_rebalance o c = (false, c) := by
  rcases h with h | ⟨s, hs, hne⟩
  · rw [h]; rfl
  · rw [hs]; simp [execute_rebalance, hne]

/-! ### C4: executor result and failed-receipt frame -/

/-- C4: `execute_rebalance` reports `true` exactly on a success-status
receipt (every raised exception or failed status yields `false`), and any
failed outcome leaves `rebalance_count` and `current_vault` of the cycle
state unchanged. -/
theorem execute_rebalance_result_and_failed_frame :
    (∀ (o : ExecOutcome) (c : ℕ),
      ((execute_rebalance o c).1 = true ↔ o = .receipt 1)) ∧
    (∀ (cfg : OptimizerConfig) (env : Env) (st : OptimizerState),
      (env.execOutcome = .error ∨ ∃ s, env.execOutcome = .receipt s ∧ s ≠ 1) →
      (run_optimization_cycle cfg env st).1.rebalance_count = st.rebalance_count ∧
      (run_optimization_cycle cfg env st).1.current_vault = st.current_vault) := by
  constructor
  · intro o c
    cases o with
    | error => simp [execute_rebalance]
    | receipt s =>
      by_cases hs : s = 1 <;> simp [execute_rebalance, hs]
  · intro cfg env st h
    have hfail : execute_rebalance env.execOutcome st.rebalance_count =
        (false, st.rebalance_count) :=
      execute_rebalance_failed env.execOutcome st.rebalance_count h
    cases hr : cycleResult cfg env with
    | none => simp [run_optimization_cycle, hr]
    | some r =>
      obtain ⟨tv, yd, sc⟩ := r
      simp only [run_optimization_cycle, hr]
      split_ifs <;> simp_all [hfail]

/-- Witness for C4: a status-0 receipt yields `false` and leaves
`rebalance_count` and `current_vault` of a concrete cycle unchanged. -/
theorem execute_rebalance_result_and_failed_frame_w :
    ((execute_rebalance .error 5).1 = true ↔ ExecOutcome.error = .receipt 1) ∧
    ((run_optimization_cycle cfgApy envFail stPrev).1.rebalance_count =
        stPrev.rebalance_count ∧
      (run_optimization_cycle cfgApy envFail stPrev).1.current_vault =
        stPrev.current_vault) :=
  ⟨execute_rebalance_result_and_failed_frame.1 .error 5,
   execute_rebalance_result_and_failed_frame.2 cfgApy envFail stPrev
     (Or.inr ⟨0, rfl, by decide⟩)⟩

/-! ### C5: when last_check_time is updated -/

/-- Counterexample to C5: a cycle whose scan is empty returns before the
`last_check_time` assignment, so the prior value 7 survives although the
current time is 99. -/
theorem empty_scan_keeps_last_check_time_cex :
    (run_optimization_cycle cfgApy envEmpty stPrev).1.last_check_time = 7 ∧
    envEmpty.now = 99 ∧ (7 : ℕ) ≠ 99 :=
  ⟨rfl, rfl, by decide⟩

/-- C5 (amended): `last_check_time` is set to the current time in every
cycle whose ranking returned a candidate — whatever the gate or the
transaction did — while a cycle whose scan is empty returns early and
leaves it unchanged. -/
theorem last_check_time_update (cfg : OptimizerConfig) (env : Env)
    (st : OptimizerState) :
    (cycleScan env ≠ [] →
      (run_optimization_cycle cfg env st).1.last_check_time = env.now) ∧
    (cycleScan env = [] →
      (run_optimization_cycle cfg env st).1.last_check_time = st.last_check_time) := by
  constructor
  · intro h
    have hn : cycleResult cfg env ≠ none := by
      rw [Ne, cycleResult_eq_none_iff]; exact h
    obtain ⟨r, hr⟩ := Option.ne_none_iff_exists'.mp hn
    obtain ⟨tv, yd, sc⟩ := r
    simp only [run_optimization_cycle, hr]
    split_ifs <;> simp
  · intro h
    simp [run_optimization_cycle, (cycleResult_eq_none_iff cfg env).mpr h]

/-- Witness for C5 (amended): a productive cycle stamps the clock, an
empty-scan cycle does not. -/
theorem last_check_time_update_w :
    (run_optimization_cycle cfgApy envRich stPrev).1.last_check_time = envRich.now ∧
    (run_optimization_cycle cfgApy envEmpty stPrev).1.last_check_time =
      stPrev.last_check_time :=
  ⟨(last_check_time_update cfgApy envRich stPrev).1 (by
      simp [cycleScan, GLUEX_VAULTS, get_multiple_vault_yields, envRich,
        processVault, truthy, cycleAmount, allocAmount, get_current_allocation]),
   (last_check_time_update cfgApy envEmpty stPrev).2 rfl⟩

/-! ### C6: empty-scan cycles change nothing -/

/-- C6: a cycle whose scan produced zero entries leaves every
`OptimizerState` field unchanged and never invokes the executor. -/
theorem empty_scan_cycle_frame (cfg : OptimizerConfig) (env : Env)
    (st : OptimizerState) (h : cycleScan env = []) :
    (run_optimization_cycle cfg env st).1.current_vault = st.current_vault ∧
    (run_optimization_cycle cfg env st).1.current_apy = st.current_apy ∧
    (run_optimization_cycle cfg env st).1.rebalance_count = st.rebalance_count ∧
    (run_optimization_cycle cfg env st).1.last_check_time = st.last_check_time ∧
    (run_optimization_cycle cfg env st).2.execCalled = none := by
  simp [run_optimization_cycle, (cycleResult_eq_none_iff cfg env).mpr h]

/-- Witness for C6 at a concrete empty-scan cycle. -/
theorem empty_scan_cycle_frame_w :
    (run_optimization_cycle cfgApy envEmpty stPrev).1.current_vault =
        stPrev.current_vault ∧
    (run_optimization_cycle cfgApy envEmpty stPrev).1.current_apy =
        stPrev.current_apy ∧
    (run_optimization_cycle cfgApy envEmpty stPrev).1.rebalance_count =
        stPrev.rebalance_count ∧
    (run_optimization_cycle cfgApy envEmpty stPrev).1.last_check_time =
        stPrev.last_check_time ∧
    (run_optimization_cycle cfgApy envEmpty stPrev).2.execCalled = none :=
  empty_scan_cycle_frame cfgApy envEmpty stPrev rfl

/-! ### C7: which APY the scan records -/

/-- Counterexample to C7: the diluted response is truthy but has no `apy`
key, the historical response has `apy = 15`, yet the scan records
`apy = 0` — the historical APY is never used as the fallback. -/
theorem scan_apy_fallback_cex :
    dilNoApy.lookup "apy" = none ∧
    dget histSample "apy" 0 = 15 ∧
    get_multiple_vault_yields 0 fetchNoApy ["v"] = [ydNoApy] ∧
    ydNoApy.apy = 0 ∧ (0 : ℚ) ≠ 15 :=
  ⟨rfl, rfl, rfl, rfl, by norm_num⟩

/-- C7 (amended): for a vault whose two calls return truthy (non-`None`,
non-empty) responses, the scan builds a `VaultYield` whose APY is the
diluted response's `apy` value with default 0 when the key is absent (the
historical APY is not consulted), and whose TVL is the historical
response's `tvl` value with default 0. -/
theorem scan_builds_diluted_apy_else_zero (t : ℕ) (fetch : String → FetchOutcome)
    (vaults : List String) (v : String) (h dl : Dict)
    (hv : v ∈ vaults) (hf : fetch v = .ok (some h) (some dl))
    (hh : h ≠ []) (hdl : dl ≠ []) :
    ({ vault_address := v, apy := dget dl "apy" 0, tvl := dget h "tvl" 0,
       risk_score := calculate_risk_score (dget dl "apy" 0) (dget h "tvl" 0),
       timestamp := t } : YieldData) ∈ get_multiple_vault_yields t fetch vaults := by
  rw [get_multiple_vault_yields_eq_filterMap]
  refine List.mem_filterMap.mpr ⟨v, hv, ?_⟩
  cases h with
  | nil => exact absurd rfl hh
  | cons p ps =>
    cases dl with
    | nil => exact absurd rfl hdl
    | cons q qs => simp [processVault, hf, truthy]

/-- Witness for C7 (amended) on the `fetchNoApy` fixture. -/
theorem scan_builds_diluted_apy_else_zero_w :
    ({ vault_address := "v", apy := dget dilNoApy "apy" 0,
       tvl := dget histSample "tvl" 0,
       risk_score := calculate_risk_score (dget dilNoApy "apy" 0)
         (dget histSample "tvl" 0),
       timestamp := 0 } : YieldData) ∈ get_multiple_vault_yields 0 fetchNoApy ["v"] :=
  scan_builds_diluted_apy_else_zero 0 fetchNoApy ["v"] "v" histSample dilNoApy
    (by simp) rfl (by simp [histSample]) (by simp [dilNoApy])

/-! ### C8: one bad vault never aborts the scan -/

/-- C8: a vault whose processing fails is omitted while every other vault
is still processed, and the result keeps the input order minus the omitted
entries (it is the `filterMap` of the remaining vaults). -/
theorem scan_failure_isolation (t : ℕ) (fetch : String → FetchOutcome)
    (pre post : List String) (v : String)
    (h : processVault t v (fetch v) = none) :
    get_multiple_vault_yields t fetch (pre ++ v :: post) =
      get_multiple_vault_yields t fetch pre ++ get_multiple_vault_yields t fetch post ∧
    get_multiple_vault_yields t fetch (pre ++ v :: post) =
      (pre ++ post).filterMap (fun w => processVault t w (fetch w)) := by
  refine ⟨?_, ?_⟩ <;>
    simp [get_multiple_vault_yields_eq_filterMap, List.filterMap_append,
      List.filterMap_cons, h]

/-- Fetch raising on the vault `"bad"` and succeeding elsewhere. -/
def fetchBad : String → FetchOutcome :=
  fun v => if v = "bad" then .raises
    else .ok (some [("apy", 5), ("tvl", 0)]) (some [("apy", 5)])

/-- Witness for C8: the scan over `["a", "bad", "c"]` equals the two good
scans concatenated. -/
theorem scan_failure_isolation_w :
    get_multiple_vault_yields 0 fetchBad (["a"] ++ "bad" :: ["c"]) =
      get_multiple_vault_yields 0 fetchBad ["a"] ++
        get_multiple_vault_yields 0 fetchBad ["c"] ∧
    get_multiple_vault_yields 0 fetchBad (["a"] ++ "bad" :: ["c"]) =
      (["a"] ++ ["c"]).filterMap (fun w => processVault 0 w (fetchBad w)) :=
  scan_failure_isolation 0 fetchBad ["a"] ["c"] "bad" rfl

/-! ### C10: the two zero-allocation fallback amounts disagree -/

/-- C10: when the allocation amount reads as zero (including a failed
read), the scan is issued with the default amount string
`"1000000000000"` while any executor invocation of the same cycle uses the
different default `1000000000` — a factor-1000 discrepancy. -/
theorem zero_allocation_fallback_mismatch (cfg : OptimizerConfig) (env : Env)
    (st : OptimizerState) (h : allocAmount env = 0) :
    (run_optimization_cycle cfg env st).2.scanAmount = "1000000000000" ∧
    (∀ tv a, (run_optimization_cycle cfg env st).2.execCalled = some (tv, a) →
      a = 1000000000) ∧
    (1000000000000 : ℕ) = 1000 * 1000000000 := by
  unfold allocAmount at h
  have ham : cycleAmount env = "1000000000000" := by
    simp [cycleAmount, allocAmount, h]
  refine ⟨?_, ?_, by norm_num⟩
  · cases hr : cycleResult cfg env with
    | none => simp [run_optimization_cycle, hr, ham]
    | some r =>
      obtain ⟨tv, yd, sc⟩ := r
      simp only [run_optimization_cycle, hr]
      split_ifs <;> simp [ham]
  · intro tv a
    cases hr : cycleResult cfg env with
    | none => intro hx; simp [run_optimization_cycle, hr] at hx
    | some r =>
      obtain ⟨tv0, yd, sc⟩ := r
      simp only [run_optimization_cycle, hr]
      split_ifs <;> intro hx <;> simp at hx <;> obtain ⟨h1x, h2x⟩ := hx <;> omega

/-- Witness for C10: a cycle whose allocation read raised scans with the
large default and rebalances with the small one. -/
theorem zero_allocation_fallback_mismatch_w :
    (run_optimization_cycle cfgApy envRich stPrev).2.scanAmount = "1000000000000" ∧
    (∀ tv a, (run_optimization_cycle cfgApy envRich stPrev).2.execCalled =
        some (tv, a) → a = 1000000000) ∧
    (1000000000000 : ℕ) = 1000 * 1000000000 :=
  zero_allocation_fallback_mismatch cfgApy envRich stPrev rfl

end HyperYield
